import Mathlib

/-
Shallow embedding of the ethan-basketball-training backend core
(`server/services/training.js` and `server/routes/stats.js` /
`server/routes/training.js`).

Modelling conventions:
  * Calendar dates are modelled as integers (day numbers); the JS code's
    `YYYY-MM-DD` strings and UTC-midnight `Date` objects are in bijection
    with these day numbers, and the only operations used on them are
    equality, ordering and adding/subtracting whole days.
  * Times of day stay `HH:MM` strings, parsed exactly where the JS code
    parses them (`split(':').map(Number)`).
  * Nullable database columns and absent JSON fields are `Option`;
    JS `??` is `Option.orElse`, JS string truthiness (`""`, `null`,
    `undefined` are falsy) is `jsFalsyStr`.
  * `prisma` record collections are Lean lists in insertion order;
    `findFirst` / `findUnique` become `List.find?`, `deleteMany` becomes
    `List.filter`, `create` appends.
-/

namespace Training

/-- A PlannedActivity record: id, type tag, planned time of day (`HH:MM`),
optional location (pickup only) and name (custom only). -/
structure PlannedActivity where
  id : Nat
  type : String
  plannedTime : String
  location : Option String
  name : Option String
deriving DecidableEq

/-- An ActualActivity record: id, type tag, optional completion time of day
(`HH:MM`), optional shooting make count (shooting only). -/
structure ActualActivity where
  id : Nat
  type : String
  completedAt : Option String
  shootingMakes : Option Nat
deriving DecidableEq

/-- A TrainingDay record with its associated activity collections. -/
structure TrainingDay where
  id : Nat
  date : Int
  isGameDay : Bool
  plannedActivities : List PlannedActivity
  actualActivities : List ActualActivity
deriving DecidableEq

/-- JS string truthiness on a nullable string: `null`/`undefined`/`""` are
falsy. -/
def jsFalsyStr (o : Option String) : Bool := (o.getD "") == ""

/- ------------------------------------------------------------------
   formatTrainingDayResponse (services/training.js lines 40-119)
   ------------------------------------------------------------------ -/

/-- The `planned` part of the formatted day view: one optional shooting slot
(id, time), pickup slots (id, time, location), custom slots (id, time, name). -/
structure PlannedView where
  shooting : Option (Nat × String)
  pickupRuns : List (Nat × String × Option String)
  custom : List (Nat × String × Option String)
deriving DecidableEq

/-- The `actual` part of the formatted day view. -/
structure ActualView where
  shootingMakes : Nat
  shootingCompletedAt : Option String
  coachSkills : Bool
  coachWeights : Bool
  varsity : Bool
  pickupRuns : List (Nat × Option String)
  custom : List (Nat × Option String)
deriving DecidableEq

/-- The formatted training day response. -/
structure TrainingDayView where
  id : Nat
  date : Int
  isGameDay : Bool
  planned : PlannedView
  actual : ActualView
deriving DecidableEq

/-- One step of the `forEach` over `plannedActivities`: dispatch on the
type tag, assigning the shooting slot (overwriting any previous value) and
appending pickup/custom slots. -/
def plannedStep (v : PlannedView) (a : PlannedActivity) : PlannedView :=
  if a.type == "shooting" then
    { v with shooting := some (a.id, a.plannedTime) }
  else if a.type == "pickup" then
    { v with pickupRuns := v.pickupRuns ++ [(a.id, a.plannedTime, a.location)] }
  else if a.type == "custom" then
    { v with custom := v.custom ++ [(a.id, a.plannedTime, a.name)] }
  else v

/-- The grouping pass over the planned activity collection. -/
def formatPlanned (acts : List PlannedActivity) : PlannedView :=
  acts.foldl plannedStep { shooting := none, pickupRuns := [], custom := [] }

/-- One step of the `switch` over `actualActivities`: shooting assigns makes
(`shootingMakes || 0`) and completion time, the three fixed types set their
booleans, pickup/custom append. -/
def actualStep (v : ActualView) (a : ActualActivity) : ActualView :=
  if a.type == "shooting" then
    { v with shootingMakes := a.shootingMakes.getD 0
             shootingCompletedAt := a.completedAt }
  else if a.type == "coach_skills" then { v with coachSkills := true }
  else if a.type == "coach_weights" then { v with coachWeights := true }
  else if a.type == "varsity" then { v with varsity := true }
  else if a.type == "pickup" then
    { v with pickupRuns := v.pickupRuns ++ [(a.id, a.completedAt)] }
  else if a.type == "custom" then
    { v with custom := v.custom ++ [(a.id, a.completedAt)] }
  else v

/-- The grouping pass over the actual activity collection. -/
def formatActual (acts : List ActualActivity) : ActualView :=
  acts.foldl actualStep
    { shootingMakes := 0, shootingCompletedAt := none, coachSkills := false
      coachWeights := false, varsity := false, pickupRuns := [], custom := [] }

/-- Function `formatTrainingDayResponse`: pure grouping of a day's raw activity
collections into the structured day view. -/
def formatTrainingDayResponse (td : TrainingDay) : TrainingDayView :=
  { id := td.id
    date := td.date
    isGameDay := td.isGameDay
    planned := formatPlanned td.plannedActivities
    actual := formatActual td.actualActivities }

/- ------------------------------------------------------------------
   calculateStreak (services/training.js lines 124-166)
   ------------------------------------------------------------------ -/

/-- The first shooting-type actual activity's make count for a day
(`trainingDay?.actualActivities?.[0]` after the `type: 'shooting'` filter,
then `shootingMakes || 0`). -/
def shootingMakesOf (td : TrainingDay) : Nat :=
  match (td.actualActivities.filter (fun a => a.type == "shooting")).head? with
  | some a => a.shootingMakes.getD 0
  | none => 0

/-- Shooting makes recorded in the store for a given user's date
(0 when no TrainingDay record exists). -/
def makesOn (days : List TrainingDay) (d : Int) : Nat :=
  match days.find? (fun td => td.date == d) with
  | some td => shootingMakesOf td
  | none => 0

/-- The `while (true)` loop of `calculateStreak`, with the loop state
(`streak`, `currentDate`) made explicit.  Each iteration: fetch the current
date's makes; if `makes >= 200` increment the streak and step back a day
(breaking once `streak > 365`, the safety limit checked after the
increment); else break if the streak already started or the current date is
strictly before today; else (today not yet at 200) step back without
incrementing. -/
def streakLoop (days : List TrainingDay) (today : Int) (streak : Nat) (current : Int) : Nat :=
  if _h1 : 200 ≤ makesOn days current then
    if _h2 : 365 < streak + 1 then streak + 1
    else streakLoop days today (streak + 1) (current - 1)
  else if _h3 : 0 < streak ∨ current < today then streak
  else streakLoop days today streak (current - 1)
termination_by (366 - streak) + (current - today + 1).toNat
decreasing_by
  · omega
  · omega

/-- Function `calculateStreak`: run the backward walk starting at today with
streak 0. -/
def calculateStreak (days : List TrainingDay) (today : Int) : Nat :=
  streakLoop days today 0 today

/- ------------------------------------------------------------------
   GET /api/stats/weekly (routes/stats.js lines 79-161)
   ------------------------------------------------------------------ -/

/-- JS `String.prototype.split(sep)` on a character list: split at every
occurrence of the separator, keeping empty components. -/
def splitCharList (sep : Char) : List Char → List (List Char)
  | [] => [[]]
  | c :: rest =>
    let r := splitCharList sep rest
    if c = sep then [] :: r
    else
      match r with
      | h :: t => (c :: h) :: t
      | [] => [[c]]

/-- JS `Number(s)` on the component strings fed to it by the time parser
(character-list level, so the kernel can evaluate it): `Number("") = 0`, a
digit string is its decimal value, anything else is NaN (`none`). -/
def jsNumberChars (cs : List Char) : Option Int :=
  if cs.isEmpty then some 0
  else if cs.all (fun c => c.isDigit) then
    some ((cs.foldl (fun n c => n * 10 + (c.toNat - 48)) 0 : Nat) : Int)
  else none

/-- Model of `time.split(':').map(Number)` followed by destructuring `[h, m]` and
`h * 60 + m`: minutes since midnight, `none` when the result would be NaN
(fewer than two components, or a non-numeric component). -/
def parseHM (s : String) : Option Int :=
  match splitCharList ':' s.toList with
  | h :: m :: _ =>
    match jsNumberChars h, jsNumberChars m with
    | some hh, some mm => some (hh * 60 + mm)
    | _, _ => none
  | _ => none

/-- Model of `Math.round(100 * num / den)` for natural `num`, `den` with `den > 0`:
`Math.round` on a non-negative value is `floor(x + 1/2)`, and the double
arithmetic is exact at every representable half-integer, so this equals
`⌊(200 num + den) / (2 den)⌋`. -/
def jsRound100 (num den : Nat) : Nat := (200 * num + den) / (2 * den)

/-- The body of the consistency loop for one planned activity: find the
first same-type actual activity of the day (the JS `find` callback tests
`a.type === planned.type` in both of its branches); if it was found, has a
truthy `completedAt`, and the planned time is truthy, parse both as `HH:MM`
and compare; on time iff the absolute difference is at most 30 minutes
(false when either parse is NaN). -/
def isOnTime (p : PlannedActivity) (acts : List ActualActivity) : Bool :=
  match acts.find? (fun a =>
      if p.type == "shooting" then a.type == "shooting" else a.type == p.type) with
  | none => false
  | some a =>
    if jsFalsyStr a.completedAt || (p.plannedTime == "") then false
    else
      match parseHM p.plannedTime, parseHM (a.completedAt.getD "") with
      | some pm, some am => decide ((am - pm).natAbs ≤ 30)
      | _, _ => false

/-- One entry of `dailyStats`. -/
structure DailyStat where
  date : Int
  dayOfWeek : Int
  makes : Nat
  completed : Bool
deriving DecidableEq

/-- The weekly stats response body. -/
structure WeeklyStats where
  dailyStats : List DailyStat
  completionPercentage : Nat
  consistencyScore : Nat
  totalMakes : Nat
deriving DecidableEq

/-- The inner `forEach` body of the consistency loop: bump `totalPlanned`,
and bump `onTime` when the planned activity checks out against the day's
actual activities.  The accumulator is `(onTime, totalPlanned)`. -/
def consistencyStep (acts : List ActualActivity) (acc : Nat × Nat)
    (p : PlannedActivity) : Nat × Nat :=
  ((if isOnTime p acts then acc.1 + 1 else acc.1), acc.2 + 1)

/-- The outer `forEach` body of the consistency loop: run the inner loop
over one day's planned activities. -/
def consistencyDayStep (acc : Nat × Nat) (day : TrainingDay) : Nat × Nat :=
  day.plannedActivities.foldl (consistencyStep day.actualActivities) acc

/-- Route `GET /api/stats/weekly`: filter the user's training days to the window
`[today-6, today]`, build the seven `dailyStats` entries (missing days give
zero makes), the completion percentage, the planned-vs-actual consistency
score (accumulating `(onTime, totalPlanned)` over the two nested
`forEach`es) and the total makes.  `dayOfWeek` models `Date.getDay()` in
the day-number encoding (day 0 is a Thursday, weekday 4). -/
def weeklyStats (days : List TrainingDay) (today : Int) : WeeklyStats :=
  let weekAgo := today - 6
  let trainingDays := days.filter (fun d => decide (weekAgo ≤ d.date) && decide (d.date ≤ today))
  let dailyStats := (List.range 7).map (fun i =>
    let date := weekAgo + (i : Int)
    let makes := match trainingDays.find? (fun d => d.date == date) with
      | some td => shootingMakesOf td
      | none => 0
    ({ date := date, dayOfWeek := (date + 4) % 7, makes := makes,
       completed := decide (200 ≤ makes) } : DailyStat))
  let completedDays := (dailyStats.filter (fun d => d.completed)).length
  let counts := trainingDays.foldl consistencyDayStep (0, 0)
  { dailyStats := dailyStats
    completionPercentage := jsRound100 completedDays 7
    consistencyScore := if 0 < counts.2 then jsRound100 counts.1 counts.2 else 0
    totalMakes := dailyStats.foldl (fun s d => s + d.makes) 0 }

/- ------------------------------------------------------------------
   Activity mutations (routes/training.js)
   ------------------------------------------------------------------ -/

/-- Route `POST /api/training/:date/planned` after validation: when the type is
`shooting`, first delete every existing planned shooting activity of the
day (`deleteMany`), then insert the new record; `location` is stored only
for pickup, `name` only for custom. -/
def addPlanned (acts : List PlannedActivity) (ty time : String)
    (location nm : Option String) (newId : Nat) : List PlannedActivity :=
  let acts1 := if ty == "shooting"
    then acts.filter (fun a => !(a.type == "shooting"))
    else acts
  acts1 ++ [{ id := newId, type := ty, plannedTime := time,
              location := if ty == "pickup" then location else none,
              name := if ty == "custom" then nm else none }]

/-- Model of the prisma delete-by-id call: remove the record
with the given id. -/
def deletePlannedById (acts : List PlannedActivity) (aid : Nat) : List PlannedActivity :=
  acts.filter (fun a => !(a.id == aid))

/-- Number of shooting-type planned activities of a day. -/
def shootingSlotCount (acts : List PlannedActivity) : Nat :=
  acts.countP (fun a => a.type == "shooting")

/-- Route `POST /api/training/:date/actual` for a fixed type
(coach_skills / coach_weights / varsity): toggle — if a record of that type
exists, delete it; otherwise create one with `completedAt || <current time>`. -/
def logFixedActual (acts : List ActualActivity) (ty : String)
    (completedAt : Option String) (now : String) (newId : Nat) : List ActualActivity :=
  match acts.find? (fun a => a.type == ty) with
  | some existing => acts.filter (fun a => !(a.id == existing.id))
  | none => acts ++ [{ id := newId, type := ty,
                       completedAt := some (if jsFalsyStr completedAt
                                            then now else completedAt.getD ""),
                       shootingMakes := none }]

/-- Route `PUT /api/training/:date/shooting` after the day and the existing
shooting activity (if any) are fetched: compute `newCompletedAt`
(auto-stamped to the current time when `makes >= 200`, the stored
completion time is falsy and none was provided), then update or create.
Returns the stored `(shootingMakes, completedAt)` pair of the day's
shooting activity. -/
def quickShootingUpdate (existing : Option ActualActivity) (makes : Nat)
    (completedAt : Option String) (now : String) : Nat × Option String :=
  let newCompletedAt : Option String :=
    if decide (200 ≤ makes) && jsFalsyStr (existing.bind (fun a => a.completedAt))
        && jsFalsyStr completedAt
    then some now else completedAt
  match existing with
  | some a => (makes, newCompletedAt.orElse (fun _ => a.completedAt))
  | none => (makes, newCompletedAt)

/- ------------------------------------------------------------------
   Ownership-checked handlers (routes/training.js lines 312-345, 448-486)
   ------------------------------------------------------------------ -/

/-- A planned activity together with its owning user
(`activity.trainingDay.userId` through the `include`). -/
structure StoredPlanned where
  ownerId : Nat
  act : PlannedActivity
deriving DecidableEq

/-- An actual activity together with its owning user. -/
structure StoredActual where
  ownerId : Nat
  act : ActualActivity
deriving DecidableEq

/-- The 404 response `res.status(404).json({ error: 'Activity not found' })`. -/
def notFoundError : Nat × String := (404, "Activity not found")

/-- Route `DELETE /api/training/:date/planned/:activityId`: look the activity up
by id; if it does not exist or belongs to another user, answer the not-found
error and leave the store unchanged; otherwise delete it.  Returns the
optional error response together with the resulting store. -/
def deletePlannedHandler (store : List StoredPlanned) (userId aid : Nat) :
    Option (Nat × String) × List StoredPlanned :=
  match store.find? (fun s => s.act.id == aid) with
  | none => (some notFoundError, store)
  | some s =>
    if s.ownerId ≠ userId then (some notFoundError, store)
    else (none, store.filter (fun x => !(x.act.id == aid)))

/-- Route `PUT /api/training/:date/actual/:activityId`: look the activity up by
id; if it does not exist or belongs to another user, answer the not-found
error and leave the store unchanged; otherwise update its
`completedAt ?? existing` and `shootingMakes ?? existing` fields. -/
def updateActualHandler (store : List StoredActual) (userId aid : Nat)
    (completedAt : Option String) (shootingMakes : Option Nat) :
    Option (Nat × String) × List StoredActual :=
  match store.find? (fun s => s.act.id == aid) with
  | none => (some notFoundError, store)
  | some s =>
    if s.ownerId ≠ userId then (some notFoundError, store)
    else (none, store.map (fun x =>
      if x.act.id == aid then
        { x with act := { x.act with
            completedAt := completedAt.orElse (fun _ => x.act.completedAt),
            shootingMakes := shootingMakes.orElse (fun _ => x.act.shootingMakes) } }
      else x))

/- ------------------------------------------------------------------
   Derived / declarative forms used by the theorems
   ------------------------------------------------------------------ -/

/-- The training days whose date falls in the 7-day window `[today-6, today]`
(the `findMany` range query of the weekly route). -/
def windowDays (days : List TrainingDay) (today : Int) : List TrainingDay :=
  days.filter (fun d => decide (today - 6 ≤ d.date) && decide (d.date ≤ today))

/-- Total number of planned activities across the window. -/
def windowPlannedTotal (days : List TrainingDay) (today : Int) : Nat :=
  ((windowDays days today).map (fun d => d.plannedActivities.length)).sum

/-- Number of window planned activities whose first same-type actual
activity completed within 30 minutes of the planned time. -/
def windowOnTimeCount (days : List TrainingDay) (today : Int) : Nat :=
  ((windowDays days today).map
    (fun d => d.plannedActivities.countP (fun p => isOnTime p d.actualActivities))).sum

/-- The `dailyStats` entry for window position `i` (0 = six days ago,
6 = today). -/
def dailyEntry (days : List TrainingDay) (today : Int) (i : Nat) : DailyStat :=
  let date := today - 6 + (i : Int)
  let makes := match (windowDays days today).find? (fun d => d.date == date) with
    | some td => shootingMakesOf td
    | none => 0
  { date := date, dayOfWeek := (date + 4) % 7, makes := makes,
    completed := decide (200 ≤ makes) }

/-- Modelled from the claim wording of C3, for comparison with the code: a
planned activity counts as on time iff SOME same-type actual activity of
the day has a completion time within 30 minutes of the planned time. -/
def claimIsOnTime (p : PlannedActivity) (acts : List ActualActivity) : Bool :=
  acts.any (fun a => a.type == p.type &&
    match a.completedAt with
    | some c =>
      match parseHM p.plannedTime, parseHM c with
      | some pm, some am => decide ((am - pm).natAbs ≤ 30)
      | _, _ => false
    | none => false)

/-- Modelled from the claim wording of C3: the consistency score computed
with the existential on-time test of `claimIsOnTime`. -/
def claimConsistencyScore (days : List TrainingDay) (today : Int) : Nat :=
  let total := windowPlannedTotal days today
  let onTime := ((windowDays days today).map
    (fun d => d.plannedActivities.countP (fun p => claimIsOnTime p d.actualActivities))).sum
  if 0 < total then jsRound100 onTime total else 0

/- ------------------------------------------------------------------
   Concrete stores used by counterexamples and witnesses
   ------------------------------------------------------------------ -/

/-- A training day at date `d` whose only record is a shooting actual
activity with the given make count. -/
def mkStreakDay (d : Int) (idx makes : Nat) : TrainingDay :=
  { id := idx, date := d, isGameDay := false, plannedActivities := [],
    actualActivities :=
      [ { id := idx, type := "shooting", completedAt := none,
          shootingMakes := some makes } ] }

/-- Store for C5: 200 makes yesterday, 150 makes two days ago, nothing
today. -/
def C5store : List TrainingDay := [mkStreakDay (-1) 1 200, mkStreakDay (-2) 2 150]

/-- Store for C1: 366 consecutive completed days ending today (day 0). -/
def longStreakStore : List TrainingDay :=
  (List.range 366).map (fun (k : Nat) => mkStreakDay (-(k : Int)) k 200)

/-- Day for C2: two planned shooting records and two actual shooting
records. -/
def C2day : TrainingDay :=
  { id := 1, date := 0, isGameDay := false,
    plannedActivities :=
      [ { id := 1, type := "shooting", plannedTime := "09:00", location := none, name := none },
        { id := 2, type := "shooting", plannedTime := "10:00", location := none, name := none } ],
    actualActivities :=
      [ { id := 3, type := "shooting", completedAt := some "09:05", shootingMakes := some 150 },
        { id := 4, type := "shooting", completedAt := some "10:10", shootingMakes := some 220 } ] }

/-- Day for C3: one planned pickup at 10:00; the first actual pickup
completed at 12:00 (off time) and the second at 10:05 (on time). -/
def C3day : TrainingDay :=
  { id := 1, date := 0, isGameDay := false,
    plannedActivities :=
      [ { id := 10, type := "pickup", plannedTime := "10:00", location := none, name := none } ],
    actualActivities :=
      [ { id := 1, type := "pickup", completedAt := some "12:00", shootingMakes := none },
        { id := 2, type := "pickup", completedAt := some "10:05", shootingMakes := none } ] }

/-- Store for C8: a day that already has a varsity actual activity. -/
def C8acts : List ActualActivity :=
  [ { id := 5, type := "varsity", completedAt := some "10:00", shootingMakes := none } ]

/-- A planned activity owned (through its training day) by user 2, for C9. -/
def C9planned : StoredPlanned :=
  { ownerId := 2,
    act := { id := 7, type := "pickup", plannedTime := "10:00", location := none, name := none } }

/-- An actual activity owned by user 2, for C9. -/
def C9actual : StoredActual :=
  { ownerId := 2,
    act := { id := 7, type := "pickup", completedAt := some "10:00", shootingMakes := none } }

/- ==================================================================
   Helper lemmas
   ================================================================== -/

lemma countP_filter_le {α : Type} (p q : α → Bool) (l : List α) :
    (l.filter q).countP p ≤ l.countP p := by
  induction l with
  | nil => simp
  | cons a l ih =>
    by_cases hq : q a
    · by_cases hp : p a
      · simp only [List.filter_cons, hq, if_pos, List.countP_cons, hp]
        omega
      · simp only [List.filter_cons, hq, if_pos, List.countP_cons, hp]
        simpa using ih
    · by_cases hp : p a
      · simp only [List.filter_cons, hq, List.countP_cons, hp]
        simp only [Bool.false_eq_true, if_false, if_true]
        omega
      · simp only [List.filter_cons, hq, List.countP_cons, hp]
        simpa using ih

lemma countP_filter_not_shooting (l : List PlannedActivity) :
    (l.filter (fun a => !(a.type == "shooting"))).countP (fun a => a.type == "shooting") = 0 := by
  induction l with
  | nil => rfl
  | cons a l ih =>
    by_cases h : a.type == "shooting"
    · simp [List.filter_cons, h, List.countP_cons, ih]
    · simp [List.filter_cons, h, List.countP_cons, ih]

/- ==================================================================
   C7: single planned shooting slot
   ================================================================== -/

/-- C7: adding a planned shooting activity leaves the day with exactly one
shooting-type planned activity whatever the day held before (delete-before-
insert), adding a non-shooting planned activity does not change the
shooting slot count, and deleting a planned activity never increases it. -/
theorem addPlanned_shooting_single_slot (acts : List PlannedActivity)
    (time : String) (loc nm : Option String) (nid : Nat) :
    shootingSlotCount (addPlanned acts "shooting" time loc nm nid) = 1 ∧
    (∀ ty, ty ≠ "shooting" →
      shootingSlotCount (addPlanned acts ty time loc nm nid) = shootingSlotCount acts) ∧
    (∀ aid, shootingSlotCount (deletePlannedById acts aid) ≤ shootingSlotCount acts) := by
  refine ⟨?_, ?_, ?_⟩
  · simp [addPlanned, shootingSlotCount, List.countP_append,
          countP_filter_not_shooting, List.countP_cons]
  · intro ty hty
    simp [addPlanned, shootingSlotCount, List.countP_append, List.countP_cons, hty]
  · intro aid
    exact countP_filter_le _ _ _

/-- C7 witness: a day that starts with two planned shooting records ends
with exactly one after the add. -/
theorem addPlanned_shooting_single_slot_witness :
    shootingSlotCount (addPlanned C2day.plannedActivities "shooting" "11:00" none none 5) = 1 ∧
    shootingSlotCount (addPlanned C2day.plannedActivities "pickup" "11:00" none none 5) =
      shootingSlotCount C2day.plannedActivities ∧
    shootingSlotCount (deletePlannedById C2day.plannedActivities 1) ≤
      shootingSlotCount C2day.plannedActivities := by
  refine ⟨?_, ?_, ?_⟩
  · exact (addPlanned_shooting_single_slot C2day.plannedActivities "11:00" none none 5).1
  · exact (addPlanned_shooting_single_slot C2day.plannedActivities "11:00" none none 5).2.1
      "pickup" (by decide)
  · exact (addPlanned_shooting_single_slot C2day.plannedActivities "11:00" none none 5).2.2 1

/- ==================================================================
   C8: fixed-type actual activity toggle
   ================================================================== -/

/-- C8 counterexample: when a varsity record already exists, the first call
deletes it (so it does not "create exactly one record"), and after the
second call a varsity record is present again (so the two calls do not end
in the "not present" state). -/
theorem logFixedActual_twice_counterexample :
    (logFixedActual C8acts "varsity" none "11:00" 6).countP (fun a => a.type == "varsity") = 0 ∧
    (logFixedActual (logFixedActual C8acts "varsity" none "11:00" 6) "varsity" none "12:00" 7).countP
        (fun a => a.type == "varsity") = 1 := by
  decide

/-- C8 (amended): for every store state in which the day has no actual
activity of the given type, and a fresh id for the created record, logging
the fixed-type activity twice in a row restores exactly the original
activity list: the first call appends exactly one record of that type and
the second call deletes it. -/
theorem logFixedActual_toggle (acts : List ActualActivity) (ty : String)
    (c c2 : Option String) (now now2 : String) (id1 id2 : Nat)
    (hty : ∀ a ∈ acts, a.type ≠ ty)
    (hid : ∀ a ∈ acts, a.id ≠ id1) :
    (logFixedActual acts ty c now id1).countP (fun a => a.type == ty) = 1 ∧
    logFixedActual (logFixedActual acts ty c now id1) ty c2 now2 id2 = acts := by
  have hfind : acts.find? (fun a => a.type == ty) = none := by
    rw [List.find?_eq_none]
    intro x hx
    simp [hty x hx]
  have hstep : logFixedActual acts ty c now id1 =
      acts ++ [{ id := id1, type := ty,
                 completedAt := some (if jsFalsyStr c then now else c.getD ""),
                 shootingMakes := none }] := by
    rw [logFixedActual, hfind]
  constructor
  · rw [hstep, List.countP_append]
    have h0 : acts.countP (fun a => a.type == ty) = 0 := by
      rw [List.countP_eq_zero]
      intro x hx
      simp [hty x hx]
    simp [h0, List.countP_cons]
  · have hone : List.find? (fun a => a.type == ty)
        [({ id := id1, type := ty,
            completedAt := some (if jsFalsyStr c then now else c.getD ""),
            shootingMakes := none } : ActualActivity)] =
        some { id := id1, type := ty,
               completedAt := some (if jsFalsyStr c then now else c.getD ""),
               shootingMakes := none } := by
      simp [List.find?_cons]
    have h1 : acts.filter (fun a => !(a.id == id1)) = acts := by
      rw [List.filter_eq_self]
      intro x hx
      simp [hid x hx]
    rw [hstep, logFixedActual, List.find?_append, hfind, Option.none_or, hone]
    simp [List.filter_append, h1]

/-- C8 witness: toggling varsity twice on an empty day ends with no varsity
record. -/
theorem logFixedActual_toggle_witness :
    (logFixedActual [] "varsity" none "12:00" 7).countP (fun a => a.type == "varsity") = 1 ∧
    logFixedActual (logFixedActual [] "varsity" none "12:00" 7) "varsity" none "13:00" 8 = [] :=
  logFixedActual_toggle [] "varsity" none none "12:00" "13:00" 7 8 (by simp) (by simp)

/- ==================================================================
   C9: uniform not-found responses
   ================================================================== -/

/-- C9: for the planned-activity delete handler and the actual-activity
update handler, a nonexistent activity id and an activity id owned by a
different user produce the same not-found response (status 404, error
"Activity not found"), and in both cases the store is unchanged. -/
theorem notFound_uniform (pstore : List StoredPlanned) (astore : List StoredActual)
    (userId aid : Nat) (c : Option String) (m : Option Nat) :
    (pstore.find? (fun s => s.act.id == aid) = none →
      deletePlannedHandler pstore userId aid = (some notFoundError, pstore)) ∧
    (∀ s, pstore.find? (fun s => s.act.id == aid) = some s → s.ownerId ≠ userId →
      deletePlannedHandler pstore userId aid = (some notFoundError, pstore)) ∧
    (astore.find? (fun s => s.act.id == aid) = none →
      updateActualHandler astore userId aid c m = (some notFoundError, astore)) ∧
    (∀ s, astore.find? (fun s => s.act.id == aid) = some s → s.ownerId ≠ userId →
      updateActualHandler astore userId aid c m = (some notFoundError, astore)) := by
  refine ⟨?_, ?_, ?_, ?_⟩
  · intro h
    rw [deletePlannedHandler, h]
  · intro s h howner
    rw [deletePlannedHandler, h]
    simp [howner]
  · intro h
    rw [updateActualHandler, h]
  · intro s h howner
    rw [updateActualHandler, h]
    simp [howner]

/-- C9 witness: with a single activity (id 7) owned by user 2, user 1 gets
the identical 404 for a missing id (99) and for the other user's id (7),
and the store is unchanged in all four cases. -/
theorem notFound_uniform_witness :
    deletePlannedHandler [C9planned] 1 99 = (some notFoundError, [C9planned]) ∧
    deletePlannedHandler [C9planned] 1 7 = (some notFoundError, [C9planned]) ∧
    updateActualHandler [C9actual] 1 99 none none = (some notFoundError, [C9actual]) ∧
    updateActualHandler [C9actual] 1 7 none none = (some notFoundError, [C9actual]) := by
  refine ⟨?_, ?_, ?_, ?_⟩
  · exact (notFound_uniform [C9planned] [C9actual] 1 99 none none).1 (by decide)
  · exact (notFound_uniform [C9planned] [C9actual] 1 7 none none).2.1 C9planned
      (by decide) (by decide)
  · exact (notFound_uniform [C9planned] [C9actual] 1 99 none none).2.2.1 (by decide)
  · exact (notFound_uniform [C9planned] [C9actual] 1 7 none none).2.2.2 C9actual
      (by decide) (by decide)

/- ==================================================================
   C6: quick shooting-update auto-stamp
   ================================================================== -/

/-- C6: on the quick shooting-update endpoint (with well-formed, hence
nonempty, stored and provided times), the completion time is auto-stamped
with the current time exactly when `makes ≥ 200`, no completion time is
stored and none is provided; in every other case the provided time (if
any) or else the stored time is used. -/
theorem quickShooting_autostamp (existing : Option ActualActivity) (makes : Nat)
    (completedAt : Option String) (now : String)
    (hstored : ∀ a t, existing = some a → a.completedAt = some t → t ≠ "")
    (hreq : ∀ t, completedAt = some t → t ≠ "") :
    (200 ≤ makes ∧ existing.bind (fun a => a.completedAt) = none ∧ completedAt = none →
      quickShootingUpdate existing makes completedAt now = (makes, some now)) ∧
    (¬(200 ≤ makes ∧ existing.bind (fun a => a.completedAt) = none ∧ completedAt = none) →
      quickShootingUpdate existing makes completedAt now =
        (makes, completedAt.orElse (fun _ => existing.bind (fun a => a.completedAt)))) := by
  constructor
  · rintro ⟨hm, hb, hc⟩
    subst hc
    rcases existing with _ | a
    · simp [quickShootingUpdate, jsFalsyStr, hm]
    · simp only [Option.some_bind] at hb
      simp [quickShootingUpdate, jsFalsyStr, hm, hb, Option.orElse]
  · intro hneg
    rcases existing with _ | a
    · rcases completedAt with _ | t
      · have hm : ¬ 200 ≤ makes := fun hm => hneg ⟨hm, rfl, rfl⟩
        simp [quickShootingUpdate, jsFalsyStr, hm, Option.orElse]
      · have ht : t ≠ "" := hreq t rfl
        simp [quickShootingUpdate, jsFalsyStr, ht, Option.orElse]
    · rcases completedAt with _ | t
      · rcases ha : a.completedAt with _ | s
        · have hm : ¬ 200 ≤ makes := fun hm => hneg ⟨hm, by simp [ha], rfl⟩
          simp [quickShootingUpdate, jsFalsyStr, hm, ha, Option.orElse]
        · have hs : s ≠ "" := hstored a s rfl ha
          simp [quickShootingUpdate, jsFalsyStr, ha, hs, Option.orElse]
      · have ht : t ≠ "" := hreq t rfl
        simp [quickShootingUpdate, jsFalsyStr, ht, Option.orElse]

/-- C6 witness: with no stored activity and no provided time, 200 makes
get stamped with the current time and 199 makes do not. -/
theorem quickShooting_autostamp_witness :
    quickShootingUpdate none 200 none "12:34" = (200, some "12:34") ∧
    quickShootingUpdate none 199 none "12:34" = (199, none) := by
  constructor
  · exact (quickShooting_autostamp none 200 none "12:34"
      (by intro a t h; cases h) (by intro t h; cases h)).1 ⟨by omega, rfl, rfl⟩
  · have h := (quickShooting_autostamp none 199 none "12:34"
      (by intro a t h; cases h) (by intro t h; cases h)).2
      (by rintro ⟨h200, -, -⟩; omega)
    simpa using h

/- ==================================================================
   C2: duplicate shooting records in formatTrainingDayResponse
   ================================================================== -/

lemma plannedStep_shooting (v : PlannedView) (a : PlannedActivity) :
    (plannedStep v a).shooting =
      if a.type == "shooting" then some (a.id, a.plannedTime) else v.shooting := by
  rw [plannedStep]
  repeat' split
  all_goals rfl

lemma actualStep_makes (v : ActualView) (a : ActualActivity) :
    (actualStep v a).shootingMakes =
      if a.type == "shooting" then a.shootingMakes.getD 0 else v.shootingMakes := by
  rw [actualStep]
  repeat' split
  all_goals rfl

lemma actualStep_completedAt (v : ActualView) (a : ActualActivity) :
    (actualStep v a).shootingCompletedAt =
      if a.type == "shooting" then a.completedAt else v.shootingCompletedAt := by
  rw [actualStep]
  repeat' split
  all_goals rfl

lemma formatPlanned_foldl_shooting (l : List PlannedActivity) (v : PlannedView) :
    (l.foldl plannedStep v).shooting =
      match l.reverse.find? (fun a => a.type == "shooting") with
      | some a => some (a.id, a.plannedTime)
      | none => v.shooting := by
  induction l generalizing v with
  | nil => simp
  | cons a l ih =>
    rw [List.foldl_cons, ih, List.reverse_cons, List.find?_append]
    by_cases h : a.type == "shooting"
    · cases hf : l.reverse.find? (fun x => x.type == "shooting")
      · simp [hf, h, plannedStep_shooting, List.find?_cons]
      · simp [hf]
    · cases hf : l.reverse.find? (fun x => x.type == "shooting")
      · simp [hf, h, plannedStep_shooting, List.find?_cons]
      · simp [hf]

lemma formatActual_foldl_shooting (l : List ActualActivity) (v : ActualView) :
    ((l.foldl actualStep v).shootingMakes, (l.foldl actualStep v).shootingCompletedAt) =
      match l.reverse.find? (fun a => a.type == "shooting") with
      | some a => (a.shootingMakes.getD 0, a.completedAt)
      | none => (v.shootingMakes, v.shootingCompletedAt) := by
  induction l generalizing v with
  | nil => simp
  | cons a l ih =>
    rw [List.foldl_cons, ih, List.reverse_cons, List.find?_append]
    by_cases h : a.type == "shooting"
    · cases hf : l.reverse.find? (fun x => x.type == "shooting")
      · simp [hf, h, actualStep_makes, actualStep_completedAt, List.find?_cons]
      · simp [hf]
    · cases hf : l.reverse.find? (fun x => x.type == "shooting")
      · simp [hf, h, actualStep_makes, actualStep_completedAt, List.find?_cons]
      · simp [hf]

/-- C2 counterexample: on a day whose planned and actual collections each
contain two shooting records, the output slot holds the SECOND record's
data, not the first record's: the single pass overwrites the slot, so the
last record wins. -/
theorem formatResponse_first_wins_counterexample :
    C2day.plannedActivities.head?.map (fun a => (a.id, a.plannedTime)) = some (1, "09:00") ∧
    (formatTrainingDayResponse C2day).planned.shooting = some (2, "10:00") ∧
    C2day.actualActivities.head?.map (fun a => a.shootingMakes) = some (some 150) ∧
    (formatTrainingDayResponse C2day).actual.shootingMakes = 220 := by
  decide

/-- C2 (amended): when duplicate shooting records exist, the single pass of
`formatTrainingDayResponse` fills the single shooting slot from the LAST
shooting-type record of the collection (the first one of the reversed
collection), for the planned slot and for the actual makes/completion
fields alike; the reconciliation is a total function, so duplicates cannot
make it crash. -/
theorem formatResponse_shooting_last_wins (td : TrainingDay) :
    (formatTrainingDayResponse td).planned.shooting =
      (td.plannedActivities.reverse.find? (fun a => a.type == "shooting")).map
        (fun a => (a.id, a.plannedTime)) ∧
    (formatTrainingDayResponse td).actual.shootingMakes =
      (match td.actualActivities.reverse.find? (fun a => a.type == "shooting") with
       | some a => a.shootingMakes.getD 0
       | none => 0) ∧
    (formatTrainingDayResponse td).actual.shootingCompletedAt =
      (td.actualActivities.reverse.find? (fun a => a.type == "shooting")).bind
        (fun a => a.completedAt) := by
  have hp := formatPlanned_foldl_shooting td.plannedActivities
    { shooting := none, pickupRuns := [], custom := [] }
  have ha := formatActual_foldl_shooting td.actualActivities
    { shootingMakes := 0, shootingCompletedAt := none, coachSkills := false
      coachWeights := false, varsity := false, pickupRuns := [], custom := [] }
  refine ⟨?_, ?_, ?_⟩
  · show (formatPlanned td.plannedActivities).shooting = _
    rw [formatPlanned, hp]
    cases td.plannedActivities.reverse.find? (fun a => a.type == "shooting") <;> rfl
  · show (formatActual td.actualActivities).shootingMakes = _
    rw [formatActual]
    cases hf : td.actualActivities.reverse.find? (fun a => a.type == "shooting") <;>
      rw [hf] at ha <;> exact congrArg Prod.fst ha
  · show (formatActual td.actualActivities).shootingCompletedAt = _
    rw [formatActual]
    cases hf : td.actualActivities.reverse.find? (fun a => a.type == "shooting") <;>
      rw [hf] at ha <;> exact congrArg Prod.snd ha

/- ==================================================================
   C3, C4, C10: weekly stats
   ================================================================== -/

lemma consistencyStep_foldl (acts : List ActualActivity) (l : List PlannedActivity)
    (acc : Nat × Nat) :
    l.foldl (consistencyStep acts) acc =
      (acc.1 + l.countP (fun p => isOnTime p acts), acc.2 + l.length) := by
  induction l generalizing acc with
  | nil => simp
  | cons p l ih =>
    rw [List.foldl_cons, ih, List.countP_cons, List.length_cons]
    by_cases h : isOnTime p acts
    · simp [consistencyStep, h, Prod.ext_iff]
      omega
    · simp [consistencyStep, h, Prod.ext_iff]
      omega

lemma consistencyDayStep_foldl (ds : List TrainingDay) (acc : Nat × Nat) :
    ds.foldl consistencyDayStep acc =
      (acc.1 + (ds.map (fun d =>
          d.plannedActivities.countP (fun p => isOnTime p d.actualActivities))).sum,
       acc.2 + (ds.map (fun d => d.plannedActivities.length)).sum) := by
  induction ds generalizing acc with
  | nil => simp
  | cons d ds ih =>
    rw [List.foldl_cons]
    rw [show consistencyDayStep acc d =
          d.plannedActivities.foldl (consistencyStep d.actualActivities) acc from rfl]
    rw [consistencyStep_foldl, ih]
    simp [Prod.ext_iff]
    constructor
    · omega
    · omega

lemma weeklyStats_dailyStats_eq (days : List TrainingDay) (today : Int) :
    (weeklyStats days today).dailyStats = (List.range 7).map (dailyEntry days today) := rfl

lemma weeklyStats_consistencyScore_eq (days : List TrainingDay) (today : Int) :
    (weeklyStats days today).consistencyScore =
      if 0 < windowPlannedTotal days today
      then jsRound100 (windowOnTimeCount days today) (windowPlannedTotal days today)
      else 0 := by
  have h : (weeklyStats days today).consistencyScore =
      (if 0 < ((windowDays days today).foldl consistencyDayStep (0, 0)).2
       then jsRound100 ((windowDays days today).foldl consistencyDayStep (0, 0)).1
              ((windowDays days today).foldl consistencyDayStep (0, 0)).2
       else 0) := rfl
  rw [h, consistencyDayStep_foldl]
  rw [windowOnTimeCount, windowPlannedTotal]
  simp

lemma jsRound100_le_100 (a b : Nat) (hab : a ≤ b) (hb : 0 < b) : jsRound100 a b ≤ 100 := by
  rw [jsRound100, Nat.div_le_iff_le_mul_add_pred (by omega)]
  omega

/-- C3 counterexample: with one planned pickup at 10:00 and two actual
pickups at 12:00 and 10:05, the code scores 0 (the FIRST same-type actual,
at 12:00, is 120 minutes off), while the claim's "some same-type actual
within 30 minutes" reading scores 100 (the 10:05 one is 5 minutes off). -/
theorem weekly_consistency_counterexample :
    (weeklyStats [C3day] 0).consistencyScore = 0 ∧
    claimConsistencyScore [C3day] 0 = 100 := by
  decide

/-- C3 (amended): the weekly consistency score equals
`round(100 × onTime / totalPlanned)` where a planned activity counts as
on-time iff the FIRST same-type actual activity of that day (in collection
order) has a completion time within 30 minutes of the planned time, and
the score is exactly 0 when there are no planned activities in the
window. -/
theorem weekly_consistency_formula (days : List TrainingDay) (today : Int) :
    (weeklyStats days today).consistencyScore =
      if 0 < windowPlannedTotal days today
      then jsRound100 (windowOnTimeCount days today) (windowPlannedTotal days today)
      else 0 :=
  weeklyStats_consistencyScore_eq days today

/-- C4: the weekly `dailyStats` list always has exactly 7 entries, the
`i`-th entry's date is `today - 6 + i` (so the dates are consecutive,
ascending and end at today), and a date with no TrainingDay record in the
store yields `makes = 0` and `completed = false`. -/
theorem weekly_dailyStats_window (days : List TrainingDay) (today : Int) :
    (weeklyStats days today).dailyStats.length = 7 ∧
    (∀ i : Nat, i < 7 →
      ((weeklyStats days today).dailyStats[i]?).map (fun s => s.date) =
        some (today - 6 + (i : Int))) ∧
    (∀ i : Nat, i < 7 → (∀ d ∈ days, d.date ≠ today - 6 + (i : Int)) →
      ((weeklyStats days today).dailyStats[i]?).map (fun s => (s.makes, s.completed)) =
        some (0, false)) := by
  refine ⟨?_, ?_, ?_⟩
  · rw [weeklyStats_dailyStats_eq]
    simp
  · intro i hi
    rw [weeklyStats_dailyStats_eq, List.getElem?_map, List.getElem?_range hi]
    simp [dailyEntry]
  · intro i hi hnone
    rw [weeklyStats_dailyStats_eq, List.getElem?_map, List.getElem?_range hi]
    have hfind : (windowDays days today).find? (fun d => d.date == today - 6 + (i : Int)) =
        none := by
      rw [List.find?_eq_none]
      intro x hx
      have hxd := hnone x (List.mem_filter.mp hx).1
      simp [hxd]
    simp [dailyEntry, hfind]

/-- C4 witness: on the empty store with today = 0, there are 7 entries, the
last one's date is today, and it reports zero makes, not completed. -/
theorem weekly_dailyStats_window_witness :
    (weeklyStats [] 0).dailyStats.length = 7 ∧
    ((weeklyStats [] 0).dailyStats[6]?).map (fun s => s.date) = some 0 ∧
    ((weeklyStats [] 0).dailyStats[6]?).map (fun s => (s.makes, s.completed)) =
      some (0, false) := by
  refine ⟨(weekly_dailyStats_window [] 0).1, ?_, ?_⟩
  · have h := (weekly_dailyStats_window [] 0).2.1 6 (by omega)
    simpa using h
  · exact (weekly_dailyStats_window [] 0).2.2 6 (by omega) (by intro d hd; cases hd)

/-- C10: the weekly completion percentage and consistency score are both
integers in [0, 100] (they are naturals, at most 7 of the 7 daily entries
are completed, and the on-time count never exceeds the planned count). -/
theorem weekly_scores_bounded (days : List TrainingDay) (today : Int) :
    (weeklyStats days today).completionPercentage ≤ 100 ∧
    (weeklyStats days today).consistencyScore ≤ 100 := by
  constructor
  · have hcp : (weeklyStats days today).completionPercentage =
        jsRound100
          (((List.range 7).map (dailyEntry days today)).filter (fun d => d.completed)).length
          7 := rfl
    have hle :
        (((List.range 7).map (dailyEntry days today)).filter (fun d => d.completed)).length ≤
          7 := by
      calc (((List.range 7).map (dailyEntry days today)).filter (fun d => d.completed)).length
          ≤ ((List.range 7).map (dailyEntry days today)).length :=
            List.length_filter_le _ _
        _ = 7 := by simp
    rw [hcp, jsRound100]
    omega
  · rw [weeklyStats_consistencyScore_eq]
    by_cases h : 0 < windowPlannedTotal days today
    · rw [if_pos h]
      refine jsRound100_le_100 _ _ ?_ h
      exact List.sum_le_sum (fun d _ => List.countP_le_length _)
    · rw [if_neg h]
      omega

/- ==================================================================
   C1, C5: the streak walk
   ================================================================== -/

lemma streakLoop_le_366 (days : List TrainingDay) (today : Int) :
    ∀ (streak : Nat) (current : Int),
      streak ≤ 365 → streakLoop days today streak current ≤ 366 := by
  intro s c
  induction s, c using streakLoop.induct days today with
  | case1 s c h1 h2 =>
    intro hs
    rw [streakLoop.eq_def, dif_pos h1, dif_pos h2]
    omega
  | case2 s c h1 h2 ih =>
    intro _
    rw [streakLoop.eq_def, dif_pos h1, dif_neg h2]
    exact ih (by omega)
  | case3 s c h1 h3 =>
    intro hs
    rw [streakLoop.eq_def, dif_neg h1, dif_pos h3]
    omega
  | case4 s c h1 h3 ih =>
    intro hs
    rw [streakLoop.eq_def, dif_neg h1, dif_neg h3]
    exact ih hs

lemma find?_range_map (f : Nat → TrainingDay)
    (hdates : ∀ i : Nat, (f i).date = -(i : Int)) :
    ∀ (n k : Nat), k < n →
      ((List.range n).map f).find? (fun td => td.date == -(k : Int)) = some (f k) := by
  intro n
  induction n with
  | zero => intro k hk; omega
  | succ n ih =>
    intro k hk
    rw [List.range_succ, List.map_append, List.find?_append]
    by_cases h : k < n
    · rw [ih k h]
      rfl
    · have hkn : k = n := by omega
      subst hkn
      have h1 : ((List.range k).map f).find? (fun td => td.date == -(k : Int)) = none := by
        rw [List.find?_eq_none]
        intro x hx
        obtain ⟨i, hi, rfl⟩ := List.mem_map.mp hx
        have hik : i < k := List.mem_range.mp hi
        simp [hdates i]
        omega
      rw [h1, Option.none_or]
      simp [hdates k]

lemma longStreak_makes (k : Nat) (hk : k < 366) :
    makesOn longStreakStore (-(k : Int)) = 200 := by
  unfold makesOn longStreakStore
  rw [find?_range_map (fun k => mkStreakDay (-(k : Int)) k 200) (fun i => rfl) 366 k hk]
  rfl

lemma streakLoop_saturates (days : List TrainingDay) (today : Int)
    (h : ∀ d : Int, today - 365 ≤ d → d ≤ today → 200 ≤ makesOn days d) :
    ∀ (t s : Nat), s + t = 365 → streakLoop days today s (today - (s : Int)) = 366 := by
  intro t
  induction t with
  | zero =>
    intro s hs
    have hmk : 200 ≤ makesOn days (today - (s : Int)) := h _ (by omega) (by omega)
    rw [streakLoop.eq_def, dif_pos hmk, dif_pos (by omega)]
    omega
  | succ t ih =>
    intro s hs
    have hmk : 200 ≤ makesOn days (today - (s : Int)) := h _ (by omega) (by omega)
    rw [streakLoop.eq_def, dif_pos hmk, dif_neg (by omega)]
    have harg : today - (s : Int) - 1 = today - ((s + 1 : Nat) : Int) := by
      push_cast
      ring
    rw [harg]
    exact ih (s + 1) (by omega)

/-- C1 counterexample: with 366 consecutive completed days ending today,
the walk returns a streak of 366 (the safety check `streak > 365` runs
after the increment), so the returned streak can exceed 365 and the walk
evaluates 366 distinct dates before today when today is incomplete. -/
theorem calculateStreak_exceeds_365 : 365 < calculateStreak longStreakStore 0 := by
  have h : ∀ d : Int, (0 : Int) - 365 ≤ d → d ≤ 0 → 200 ≤ makesOn longStreakStore d := by
    intro d h1 h2
    have hk : d = -((d.natAbs : Nat) : Int) := by omega
    rw [hk, longStreak_makes d.natAbs (by omega)]
  have hsat := streakLoop_saturates longStreakStore 0 h 365 0 rfl
  rw [calculateStreak]
  have h0 : (0 : Int) - ((0 : Nat) : Int) = 0 := by norm_num
  rw [h0] at hsat
  omega

/-- C1 (amended): the backward walk stops once the accumulated streak
exceeds 365, so it inspects at most 366 distinct dates before today and
the returned streak never exceeds 366 (the bound 366, not 365, because the
safety check `streak > 365` runs after the increment). -/
theorem calculateStreak_le_366 (days : List TrainingDay) (today : Int) :
    calculateStreak days today ≤ 366 :=
  streakLoop_le_366 days today 0 today (by omega)

/-- C5: with 200 makes recorded for yesterday, 150 for two days ago and no
record for today, the streak computed today is exactly 1: today's missing
record does not break the streak, the sub-threshold day two days ago
does. -/
theorem streak_break_scenario : calculateStreak C5store 0 = 1 := by
  rw [calculateStreak, streakLoop.eq_def, dif_neg (by decide), dif_neg (by decide)]
  rw [streakLoop.eq_def, dif_pos (by decide), dif_neg (by decide)]
  rw [streakLoop.eq_def, dif_neg (by decide), dif_pos (by decide)]

end Training
